import Mathlib

/-!
Shallow embedding of the dnf5 module resolution engine
(`src/libdnf/module/module_sack.cpp`): the static-context resolver, the
considered-set cache, the tiered goal solver, the active-module selector and
the modular filter, together with theorems checking the specification's
claims against these definitions.

External collaborators (the libsolv constraint solver, the metadata parser,
the persisted system state store and the package query facility) are modelled
as explicit parameters, following the contracts the specification states for
them.  Machine state (`ModuleSack::Impl`) is modelled as an explicit record
threaded through the operations; the four-tier solve additionally returns the
ordered list of goal attempts it actually resolved, so that scheduling claims
are expressible.
-/

namespace Dnf5Module

/-- Persisted per-name module state (`ModuleState` in the source). -/
inductive ModuleState where
  | AVAILABLE
  | ENABLED
  | DISABLED
deriving DecidableEq

/-- One module record (`ModuleItem`): name, stream, version, parser-provided
context, the context computed by the static-context resolver (absent until
assigned), the dependency requirement signature
(`get_module_dependencies_string`), the artifact NEVRA strings, and the
solver item identifier of its solvable. -/
structure ModuleItem where
  name : String
  stream : String
  version : String
  context : String
  computed_static_context : Option String
  requires_string : String
  artifacts : List String
  id : Nat
deriving DecidableEq

/-- Modelled from the spec: the derived name+stream key of a module record
(`ModuleItem::get_name_stream` is not under `src/`). -/
def ModuleItem.get_name_stream (m : ModuleItem) : String :=
  m.name ++ ":" ++ m.stream

/-- Modelled from the spec: the record's context label, the computed static
context once the resolver assigned one, otherwise the parser-provided
context (`ModuleItem::get_context` is not under `src/`). -/
def ModuleItem.context_label (m : ModuleItem) : String :=
  m.computed_static_context.getD m.context

/-- Modelled from the spec: the name+stream+context key a record is matched
against solver-selected item names with
(`ModuleItem::get_name_stream_staticcontext` is not under `src/`). -/
def ModuleItem.name_stream_staticcontext (m : ModuleItem) : String :=
  m.name ++ ":" ++ m.stream ++ ":" ++ m.context_label

/-- Context assignment for one dynamic-context record: the body of the loop of
`ModuleSack::Impl::add_modules_without_static_context`.  The record is matched
against the static-context records (`static_context_map` keyed by name+stream
and requires string; `second[0]` is the first static record, in list order,
with that key); on a match the group's context is adopted, otherwise the
requires string itself (or `"NoRequires"` when it is empty) becomes the
computed static context. -/
def assign_context (static_modules : List ModuleItem) (m : ModuleItem) : ModuleItem :=
  let requires_string := m.requires_string
  match static_modules.find? (fun s =>
      s.get_name_stream = m.get_name_stream ∧ s.requires_string = requires_string) with
  | some s => { m with computed_static_context := some s.context }
  | none =>
      let label := if requires_string = "" then "NoRequires" else requires_string
      { m with computed_static_context := some label }

/-- The mutable state of `ModuleSack::Impl` that the resolution engine reads
and writes: the pool size, the pool's solvable names indexed by item id, the
resolved module records, the records still awaiting a context, the Exclude
Set (`excludes`, a nullable bitmap), the pool's considered bitmap (nullable),
the two cache flags, the Active Module Map (an id-ordered association list,
mirroring `std::map<Id, ModuleItem *>`), and the "resolution has run" flag
(`active_modules_resolved`, a member of `ModuleSack`). -/
structure Impl where
  nsolvables : Nat
  solvable_names : List String
  modules : List ModuleItem
  modules_without_static_context : List ModuleItem
  excludes : Option (Finset Nat)
  considered : Option (Finset Nat)
  considered_uptodate : Bool
  provides_ready : Bool
  active_modules : List (Nat × ModuleItem)
  active_modules_resolved : Bool
deriving DecidableEq

/-- `ModuleSack::Impl::add_modules_without_static_context`: every record
without a static context is assigned one (matching only against the records
that were already resolved when the map was built) and committed into
`modules`; the pending list is cleared. -/
def add_modules_without_static_context (st : Impl) : Impl :=
  if st.modules_without_static_context.isEmpty then st
  else
    { st with
        modules := st.modules ++
          st.modules_without_static_context.map (assign_context st.modules)
        modules_without_static_context := [] }

/-- The bitset value `recompute_considered_in_pool` computes: all solver items
(`map_setall`) minus the Exclude Set when one is allocated (`map_subtract`). -/
def all_items_minus_excludes (st : Impl) : Finset Nat :=
  match st.excludes with
  | some e => Finset.range st.nsolvables \ e
  | none => Finset.range st.nsolvables

/-- `ModuleSack::Impl::recompute_considered_in_pool`: a no-op when the cache
is up to date; otherwise the considered bitmap is (re)initialised to all
items, the Exclude Set is subtracted, and the cache is marked clean.  The
returned boolean reports whether the bitset was actually recomputed. -/
def recompute_considered_in_pool (st : Impl) : Impl × Bool :=
  if st.considered_uptodate then (st, false)
  else
    ({ st with
        considered := some (all_items_minus_excludes st)
        considered_uptodate := true }, true)

/-- `ModuleSack::Impl::make_provides_ready`: a no-op once the provides index
is built; otherwise the considered bitmap is detached (`pool->considered =
nullptr`), the index is built (`pool_createwhatprovides`, modelled as the
fallible parameter `cwp` reading the detached bitmap), and the saved bitmap
is reattached.  An error raised by the index construction propagates
(returned as `some` in the second component) with the state as the C++ code
leaves it at that point. -/
def make_provides_ready (cwp : Option (Finset Nat) → Except Unit Unit) (st : Impl) :
    Impl × Option Unit :=
  if st.provides_ready then (st, none)
  else
    let saved := st.considered
    let st1 : Impl := { st with considered := none }
    match cwp st1.considered with
    | Except.error e => (st1, some e)
    | Except.ok _ => ({ st1 with provides_ready := true, considered := saved }, none)

/-- Adds one solver item to the Exclude Set (`excludes->add(id)`; the caller
guarantees the Exclude Set is allocated).  Modelled from the spec: any
exclude mutation marks the Considered-Set Cache dirty (`SolvMap` and the
dirty-flag bookkeeping are not under `src/`; the spec's invariant is that the
considered set is recomputed exactly when the Exclude Set has changed). -/
def excludes_add (st : Impl) (i : Nat) : Impl :=
  { st with
      excludes := st.excludes.map (fun e => insert i e)
      considered_uptodate := false }

/-- Boolean membership test of a solver item in the (nullable) Exclude Set. -/
def excludes_mem (st : Impl) (i : Nat) : Bool :=
  match st.excludes with
  | some e => decide (i ∈ e)
  | none => false

/-- One job added to a goal by `add_provide_install(reldep_id, strict, best)`:
the `module(name:stream)` reldep string and the strict/best weight flags. -/
abbrev Job := String × Bool × Bool

/-- The answer of one external solver run (`ModuleGoalPrivate` wraps the
external libsolv solver; per the spec it reports a problem-free or
problem-present verdict, the selected item identifiers on success
(`list_installs`), the mutually-conflicting item identifiers on certain
failures (`list_conflicting`), and whether a transaction was produced
(`get_transaction`)). -/
structure GoalResult where
  problem : Bool
  installs : List Nat
  conflicting : List Nat
  has_transaction : Bool
deriving DecidableEq

/-- The external constraint solver, as an oracle from a goal's job list and
the pool's considered bitmap to the solver's answer. -/
abbrev Oracle := List Job → Option (Finset Nat) → GoalResult

/-- The persisted module state store (`base->p_impl->get_system_state()`),
modelled from the spec as a per-name association of a `ModuleState` and the
enabled-stream string; an absent name signals the not-found condition. -/
abbrev SystemState := List (String × ModuleState × String)

/-- The defaults mapping produced by the external metadata parser
(`module_metadata.get_default_streams()`), name to default stream. -/
abbrev DefaultStreams := List (String × String)

/-- `get_module_state` with the `StateNotFoundError` handler of
`module_solve`: an unknown name is treated as `AVAILABLE`. -/
def module_state_of (sys : SystemState) (name : String) : ModuleState :=
  match List.lookup name sys with
  | some se => se.1
  | none => ModuleState.AVAILABLE

/-- The persisted enabled-stream of a name, empty when the name is unknown. -/
def enabled_stream_of (sys : SystemState) (name : String) : String :=
  match List.lookup name sys with
  | some se => se.2
  | none => ""

/-- `ModuleSack::get_default_stream`: default-stream lookup against the
parsed defaults; the empty string mirrors `EMPTY_RESULT` when absent. -/
def get_default_stream (defaults : DefaultStreams) (name : String) : String :=
  (List.lookup name defaults).getD ""

/-- The four goals `module_solve` constructs, by the order of their
declaration: `goal_strict`, `goal_best`, `goal` (weak-preferred) and
`goal_weak`. -/
structure Goals where
  goal_strict : List Job
  goal_best : List Job
  goal : List Job
  goal_weak : List Job
deriving DecidableEq

/-- One iteration of the job-building loop of `module_solve`: the
`module(name:stream)` reldep of the item is appended to all four goals with
the weights the source uses (strict always `(1,1)`, weak always `(0,0)`,
best `(1,1)` for an `ENABLED` name else `(0,1)`, weak-preferred `(1,0)` for
an `ENABLED` name else `(0,0)`). -/
def add_goal_jobs (sys : SystemState) (gs : Goals) (m : ModuleItem) : Goals :=
  let reldep := "module(" ++ m.get_name_stream ++ ")"
  if module_state_of sys m.name = ModuleState.ENABLED then
    { goal_strict := gs.goal_strict ++ [(reldep, true, true)]
      goal_best := gs.goal_best ++ [(reldep, true, true)]
      goal := gs.goal ++ [(reldep, true, false)]
      goal_weak := gs.goal_weak ++ [(reldep, false, false)] }
  else
    { goal_strict := gs.goal_strict ++ [(reldep, true, true)]
      goal_best := gs.goal_best ++ [(reldep, false, true)]
      goal := gs.goal ++ [(reldep, false, false)]
      goal_weak := gs.goal_weak ++ [(reldep, false, false)] }

/-- The job lists of the four goals of `module_solve` for a candidate list. -/
def build_goals (sys : SystemState) (items : List ModuleItem) : Goals :=
  items.foldl (add_goal_jobs sys) ⟨[], [], [], []⟩

/-- One `ModuleGoalPrivate::resolve()` call.  Modelled from the spec: the
Considered-Set Cache is consulted before each solve attempt (the body of
`ModuleGoalPrivate` is not under `src/`), after which the external solver is
run on the goal's jobs against the pool's considered bitmap. -/
def goal_resolve (oracle : Oracle) (jobs : List Job) (st : Impl) : GoalResult × Impl :=
  let st1 := (recompute_considered_in_pool st).1
  (oracle jobs st1.considered, st1)

/-- Ordered insertion into the Active Module Map, mirroring
`active_modules[id] = item` on a `std::map` ordered by item id. -/
def am_insert : List (Nat × ModuleItem) → Nat → ModuleItem → List (Nat × ModuleItem)
  | [], k, v => [(k, v)]
  | (k0, v0) :: rest, k, v =>
    if k < k0 then (k, v) :: (k0, v0) :: rest
    else if k = k0 then (k, v) :: rest
    else (k0, v0) :: am_insert rest k v

/-- `ModuleSack::Impl::set_active_modules`: when the goal carries no
transaction the Active Module Map is cleared; then every module record whose
name+stream+context key equals the pool name of some selected solvable is
entered into the map under its item id. -/
def set_active_modules (st : Impl) (g : GoalResult) : Impl :=
  let st1 := if g.has_transaction = false then { st with active_modules := [] } else st
  let solvable_nms := g.installs.map (fun i => st1.solvable_names.getD i "")
  { st1 with
      active_modules := st1.modules.foldl
        (fun am m =>
          if m.name_stream_staticcontext ∈ solvable_nms then am_insert am m.id m else am)
        st1.active_modules }

/-- The map `set_active_modules` would build from scratch: the matched
selection of a goal result, keyed by item id. -/
def matched_selection (modules : List ModuleItem) (solvable_names : List String)
    (g : GoalResult) : List (Nat × ModuleItem) :=
  let solvable_nms := g.installs.map (fun i => solvable_names.getD i "")
  modules.foldl
    (fun am m =>
      if m.name_stream_staticcontext ∈ solvable_nms then am_insert am m.id m else am)
    []

/-- The goal-resolution attempts of the tiered solve, in source order. -/
inductive Tier where
  | strict
  | best
  | weakPref
  | weak
deriving DecidableEq

/-- `ModuleSack::ModuleErrorType`. -/
inductive ModuleErrorType where
  | NO_ERROR
  | ERROR_IN_DEFAULTS
  | ERROR_IN_LATEST
  | ERROR
  | CANNOT_RESOLVE_MODULES
deriving DecidableEq

/-- The infallible provides-index builder `pool_createwhatprovides` (a plain
C routine: it reads the considered bitmap and cannot raise). -/
def pool_createwhatprovides : Option (Finset Nat) → Except Unit Unit :=
  fun _ => Except.ok ()

/-- `ModuleSack::Impl::module_solve`: on an empty candidate list the Active
Module Map is cleared and `(no problems, NO_ERROR)` returned at once;
otherwise the considered cache and the provides index are readied, the four
goals are built, and the attempts are resolved strictly in the order strict,
best, weak-preferred, weak — the first problem-free attempt sets the active
modules and the severity of its tier; the weak-preferred attempt's
conflicting items are added to the Exclude Set before the weak attempt; if
every attempt fails the map is cleared and `CANNOT_RESOLVE_MODULES`
returned.  The third component lists the attempts actually resolved, in
order. -/
def module_solve (oracle : Oracle) (sys : SystemState) (module_items : List ModuleItem)
    (st : Impl) : (List (List String) × ModuleErrorType) × Impl × List Tier :=
  if module_items.isEmpty then
    (([], ModuleErrorType.NO_ERROR), { st with active_modules := [] }, [])
  else
    let st1 := (recompute_considered_in_pool st).1
    let st2 := (make_provides_ready pool_createwhatprovides st1).1
    let gs := build_goals sys module_items
    let (r1, st3) := goal_resolve oracle gs.goal_strict st2
    if r1.problem = false then
      (([], ModuleErrorType.NO_ERROR), set_active_modules st3 r1, [Tier.strict])
    else
      let (r2, st4) := goal_resolve oracle gs.goal_best st3
      if r2.problem = false then
        (([], ModuleErrorType.ERROR_IN_DEFAULTS), set_active_modules st4 r2,
          [Tier.strict, Tier.best])
      else
        let (r3, st5) := goal_resolve oracle gs.goal st4
        if r3.problem = false then
          (([], ModuleErrorType.ERROR_IN_LATEST), set_active_modules st5 r3,
            [Tier.strict, Tier.best, Tier.weakPref])
        else
          let st6 := r3.conflicting.foldl excludes_add st5
          let (r4, st7) := goal_resolve oracle gs.goal_weak st6
          if r4.problem = false then
            (([], ModuleErrorType.ERROR), set_active_modules st7 r4,
              [Tier.strict, Tier.best, Tier.weakPref, Tier.weak])
          else
            (([], ModuleErrorType.CANNOT_RESOLVE_MODULES),
              { st7 with active_modules := [] },
              [Tier.strict, Tier.best, Tier.weakPref, Tier.weak])

/-- The pool state after the initial cache refresh and provides-index build
of `module_solve` (on its non-empty path). -/
def solve_setup (st : Impl) : Impl :=
  (make_provides_ready pool_createwhatprovides (recompute_considered_in_pool st).1).1

/-- The answer the strict attempt of `module_solve` receives. -/
def tier_strict_result (oracle : Oracle) (sys : SystemState) (items : List ModuleItem)
    (st : Impl) : GoalResult :=
  oracle (build_goals sys items).goal_strict (solve_setup st).considered

/-- The answer the best attempt of `module_solve` receives. -/
def tier_best_result (oracle : Oracle) (sys : SystemState) (items : List ModuleItem)
    (st : Impl) : GoalResult :=
  oracle (build_goals sys items).goal_best (solve_setup st).considered

/-- The answer the weak-preferred attempt of `module_solve` receives. -/
def tier_goal_result (oracle : Oracle) (sys : SystemState) (items : List ModuleItem)
    (st : Impl) : GoalResult :=
  oracle (build_goals sys items).goal (solve_setup st).considered

/-- The pool state in which the weak attempt of `module_solve` resolves:
the weak-preferred attempt's conflicting items have been added to the
Exclude Set and the considered cache has been consulted again. -/
def weak_pool (oracle : Oracle) (sys : SystemState) (items : List ModuleItem)
    (st : Impl) : Impl :=
  (recompute_considered_in_pool
    ((tier_goal_result oracle sys items st).conflicting.foldl excludes_add
      (solve_setup st))).1

/-- The answer the weak attempt of `module_solve` receives. -/
def tier_weak_result (oracle : Oracle) (sys : SystemState) (items : List ModuleItem)
    (st : Impl) : GoalResult :=
  oracle (build_goals sys items).goal_weak (weak_pool oracle sys items st).considered

/-- One iteration of the candidate-selection loop of
`ModuleSack::resolve_active_module_items`: the persisted state of the
module's name is read (`get_module_state` and `get_module_enabled_stream`;
the `StateNotFoundError` handler sets the state to `AVAILABLE` and leaves
the `enabled_stream` variable, which lives outside the loop, unchanged).  A
`DISABLED` record's item is added to the Exclude Set; an `ENABLED` record
whose stream equals the enabled-stream is a candidate; otherwise a record
whose stream equals its name's default stream is a candidate; otherwise the
record is ignored. -/
def selector_step (sys : SystemState) (defaults : DefaultStreams)
    (acc : Impl × List ModuleItem × String) (m : ModuleItem) :
    Impl × List ModuleItem × String :=
  let (st, cands, prev_enabled_stream) := acc
  let (state, enabled_stream) :=
    match List.lookup m.name sys with
    | some se => se
    | none => (ModuleState.AVAILABLE, prev_enabled_stream)
  if state = ModuleState.DISABLED then (excludes_add st m.id, cands, enabled_stream)
  else if state = ModuleState.ENABLED ∧ enabled_stream = m.stream then
    (st, cands ++ [m], enabled_stream)
  else if get_default_stream defaults m.name = m.stream then
    (st, cands ++ [m], enabled_stream)
  else (st, cands, enabled_stream)

/-- The candidate-selection loop of `ModuleSack::resolve_active_module_items`
(lines 490-505): returns the state with the disabled records' items excluded
together with the candidate list `module_items_to_solve`. -/
def module_items_to_solve (sys : SystemState) (defaults : DefaultStreams) (st : Impl) :
    Impl × List ModuleItem :=
  let r := st.modules.foldl (selector_step sys defaults) (st, [], "")
  (r.1, r.2.1)

/-- Whether the selection loop makes a record a solve candidate (pointwise
characterisation: the stale `enabled_stream` variable is never read on the
candidate paths, because the `ENABLED` test fails whenever the state lookup
failed). -/
def is_candidate (sys : SystemState) (defaults : DefaultStreams) (m : ModuleItem) : Bool :=
  match List.lookup m.name sys with
  | some (ModuleState.DISABLED, _) => false
  | some (ModuleState.ENABLED, es) =>
      decide (es = m.stream ∨ get_default_stream defaults m.name = m.stream)
  | some (ModuleState.AVAILABLE, _) => decide (get_default_stream defaults m.name = m.stream)
  | none => decide (get_default_stream defaults m.name = m.stream)

/-- Whether a record's persisted state is `DISABLED`. -/
def is_disabled (sys : SystemState) (m : ModuleItem) : Bool :=
  match List.lookup m.name sys with
  | some (ModuleState.DISABLED, _) => true
  | _ => false

/-- `ModuleSack::resolve_active_module_items`: the Exclude Set is reset to a
fresh empty bitmap (marking the considered cache dirty, per the spec's
invariant on exclude mutations), the candidate list is selected, the tiered
solve runs, and the "resolution has run" flag is set on return regardless of
the outcome. -/
def resolve_active_module_items (oracle : Oracle) (sys : SystemState)
    (defaults : DefaultStreams) (st : Impl) :
    (List (List String) × ModuleErrorType) × Impl :=
  let st0 : Impl := { st with excludes := some ∅, considered_uptodate := false }
  let (st1, cands) := module_items_to_solve sys defaults st0
  let (out, st2, _) := module_solve oracle sys cands st1
  (out, { st2 with active_modules_resolved := true })

/-- `ModuleSack::get_active_modules`: an empty registry yields an empty list;
otherwise resolution runs first unless the "resolution has run" flag is
already set, and the Active Module Map's values are returned.  The third
component reports whether a resolution pass ran. -/
def get_active_modules (oracle : Oracle) (sys : SystemState)
    (defaults : DefaultStreams) (st : Impl) : List ModuleItem × Impl × Bool :=
  if st.modules.isEmpty then ([], st, false)
  else if st.active_modules_resolved = false then
    let (_, st1) := resolve_active_module_items oracle sys defaults st
    (st1.active_modules.map (fun kv => kv.2), st1, true)
  else (st.active_modules.map (fun kv => kv.2), st, false)

/-- Modelled from the spec: a Module Record is active iff the Active Module
Map holds its solver item (`ModuleItem::is_active` is not under `src/`). -/
def ModuleItem.is_active (m : ModuleItem) (active : List (Nat × ModuleItem)) : Bool :=
  (List.lookup m.id active).isSome

/-- One package of the package sack, as the modular filter sees it: its
name, architecture, full NEVRA identifier, originating repository id and
provide names (the package query facility is an external collaborator). -/
structure Package where
  name : String
  arch : String
  nevra : String
  repo_id : String
  provides : List String
deriving DecidableEq

/-- One repository's configuration, as consulted by the hotfix-repository
query of `module_filtering`. -/
structure RepoCfg where
  id : String
  enabled : Bool
  module_hotfixes : Bool
deriving DecidableEq

/-- The external NEVRA parser (`rpm::Nevra::parse`): an artifact string to
its package name and architecture, `none` on an unparsable NEVRA. -/
abbrev NevraParse := String → Option (String × String)

/-- The five collections `collect_data_for_modular_filtering` returns:
include NEVRAs, exclude NEVRAs, binary artifact names, source artifact
names, and the reldep list of binary artifact names. -/
structure FilterData where
  include_NEVRAs : List String
  exclude_NEVRAs : List String
  names : List String
  src_names : List String
  reldep_name_list : List String
deriving DecidableEq

/-- The per-artifact step of `collect_data_for_modular_filtering` for an
active module: unparsable NEVRAs are skipped; `src`/`nosrc` artifacts feed
`src_names`, other artifacts feed `names` and the reldep list. -/
def collect_artifact (parse : NevraParse) (acc : FilterData) (rpm : String) : FilterData :=
  match parse rpm with
  | none => acc
  | some na =>
    if na.2 = "src" ∨ na.2 = "nosrc" then
      { acc with src_names := acc.src_names ++ [na.1] }
    else
      { acc with
          names := acc.names ++ [na.1]
          reldep_name_list := acc.reldep_name_list ++ [na.1] }

/-- The per-module step of `collect_data_for_modular_filtering`: an active
module's artifacts are classified and then appended to the include NEVRAs; an
inactive module's artifacts are appended to the exclude NEVRAs. -/
def collect_module (parse : NevraParse) (active : List (Nat × ModuleItem))
    (acc : FilterData) (m : ModuleItem) : FilterData :=
  if m.is_active active then
    let acc1 := m.artifacts.foldl (collect_artifact parse) acc
    { acc1 with include_NEVRAs := acc1.include_NEVRAs ++ m.artifacts }
  else { acc with exclude_NEVRAs := acc.exclude_NEVRAs ++ m.artifacts }

/-- `ModuleSack::Impl::collect_data_for_modular_filtering`: partitions all
module artifacts by the activity of their module. -/
def collect_data_for_modular_filtering (parse : NevraParse) (st : Impl) : FilterData :=
  st.modules.foldl (collect_module parse st.active_modules) ⟨[], [], [], [], []⟩

/-- `ModuleSack::Impl::module_filtering`: builds the protected target
universe (packages from `@System`, `@commandline` and enabled hotfix
repositories are never filtered), the include query (packages matching an
active module's artifact NEVRAs, over the whole sack), and the three
published exclude queries — by exclude NEVRAs, by provides of active
artifact names, and by (binary or source) artifact names — each minus the
include query.  Returns the three queries in publication order
(`set_module_excludes`, then the two `add_module_excludes`). -/
def module_filtering (parse : NevraParse) (base_pkgs : List Package)
    (repos : List RepoCfg) (st : Impl) : List Package × List Package × List Package :=
  let d := collect_data_for_modular_filtering parse st
  let keep_repo_ids :=
    ["@System", "@commandline"] ++
      ((repos.filter (fun r => r.enabled && r.module_hotfixes)).map (fun r => r.id))
  let target_packages := base_pkgs.filter (fun p => decide (p.repo_id ∉ keep_repo_ids))
  let include_query := base_pkgs.filter (fun p => decide (p.nevra ∈ d.include_NEVRAs))
  let exclude_query :=
    (target_packages.filter (fun p => decide (p.nevra ∈ d.exclude_NEVRAs))).filter
      (fun p => decide (p ∉ include_query))
  let exclude_provides_query :=
    (target_packages.filter
        (fun p => p.provides.any (fun pr => decide (pr ∈ d.reldep_name_list)))).filter
      (fun p => decide (p ∉ include_query))
  let exclude_src_names_query :=
    (target_packages.filter (fun p => decide (p.name ∈ d.src_names))).filter
      (fun p => decide (p.arch = "src" ∨ p.arch = "nosrc"))
  let exclude_names_only := target_packages.filter (fun p => decide (p.name ∈ d.names))
  let exclude_names_merged :=
    exclude_names_only ++
      exclude_src_names_query.filter (fun p => decide (p ∉ exclude_names_only))
  let exclude_names_query :=
    exclude_names_merged.filter (fun p => decide (p ∉ include_query))
  (exclude_query, exclude_provides_query, exclude_names_query)

lemma recompute_of_uptodate (st : Impl) (h : st.considered_uptodate = true) :
    recompute_considered_in_pool st = (st, false) := by
  simp [recompute_considered_in_pool, h]

lemma recompute_of_dirty (st : Impl) (h : st.considered_uptodate = false) :
    recompute_considered_in_pool st =
      ({ st with
          considered := some (all_items_minus_excludes st)
          considered_uptodate := true }, true) := by
  simp [recompute_considered_in_pool, h]

lemma recompute_uptodate (st : Impl) :
    (recompute_considered_in_pool st).1.considered_uptodate = true := by
  unfold recompute_considered_in_pool
  split
  · assumption
  · rfl

lemma recompute_excludes (st : Impl) :
    (recompute_considered_in_pool st).1.excludes = st.excludes := by
  unfold recompute_considered_in_pool
  split <;> rfl

lemma make_provides_ready_ok (st : Impl) :
    make_provides_ready pool_createwhatprovides st =
      (if st.provides_ready then st else { st with provides_ready := true }, none) := by
  unfold make_provides_ready pool_createwhatprovides
  split
  · rename_i h
    simp [h]
  · rename_i h
    simp only [Bool.not_eq_true] at h
    simp [h]

lemma solve_setup_uptodate (st : Impl) :
    (solve_setup st).considered_uptodate = true := by
  unfold solve_setup
  rw [make_provides_ready_ok]
  split
  · exact recompute_uptodate st
  · exact recompute_uptodate st

lemma solve_setup_excludes (st : Impl) :
    (solve_setup st).excludes = st.excludes := by
  unfold solve_setup
  rw [make_provides_ready_ok]
  split
  · exact recompute_excludes st
  · exact recompute_excludes st

lemma foldl_excludes_add_excludes (l : List Nat) :
    ∀ (st : Impl) (e : Finset Nat), st.excludes = some e →
      (l.foldl excludes_add st).excludes = some (e ∪ l.toFinset) := by
  induction l with
  | nil =>
    intro st e h
    simpa using h
  | cons x xs ih =>
    intro st e h
    have hx : (excludes_add st x).excludes = some (insert x e) := by
      simp [excludes_add, h]
    have := ih (excludes_add st x) (insert x e) hx
    simp only [List.foldl_cons]
    rw [this, List.toFinset_cons]
    congr 1
    rw [Finset.insert_union, Finset.union_insert]

lemma foldl_excludes_add_dirty (l : List Nat) :
    ∀ st : Impl, l ≠ [] → (l.foldl excludes_add st).considered_uptodate = false := by
  induction l with
  | nil =>
    intro st h
    cases h rfl
  | cons x xs ih =>
    intro st _
    cases xs with
    | nil => simp [excludes_add]
    | cons y ys =>
      exact ih (excludes_add st x) (by simp)

lemma module_solve_eq (oracle : Oracle) (sys : SystemState) (items : List ModuleItem)
    (st : Impl) (h : items ≠ []) :
    module_solve oracle sys items st =
      (if (tier_strict_result oracle sys items st).problem = false then
        (([], ModuleErrorType.NO_ERROR),
          set_active_modules (solve_setup st) (tier_strict_result oracle sys items st),
          [Tier.strict])
      else if (tier_best_result oracle sys items st).problem = false then
        (([], ModuleErrorType.ERROR_IN_DEFAULTS),
          set_active_modules (solve_setup st) (tier_best_result oracle sys items st),
          [Tier.strict, Tier.best])
      else if (tier_goal_result oracle sys items st).problem = false then
        (([], ModuleErrorType.ERROR_IN_LATEST),
          set_active_modules (solve_setup st) (tier_goal_result oracle sys items st),
          [Tier.strict, Tier.best, Tier.weakPref])
      else if (tier_weak_result oracle sys items st).problem = false then
        (([], ModuleErrorType.ERROR),
          set_active_modules (weak_pool oracle sys items st)
            (tier_weak_result oracle sys items st),
          [Tier.strict, Tier.best, Tier.weakPref, Tier.weak])
      else
        (([], ModuleErrorType.CANNOT_RESOLVE_MODULES),
          { weak_pool oracle sys items st with active_modules := [] },
          [Tier.strict, Tier.best, Tier.weakPref, Tier.weak])) := by
  have hE : items.isEmpty = false := by
    cases items with
    | nil => cases h rfl
    | cons a as => rfl
  have hset : recompute_considered_in_pool
      ((make_provides_ready pool_createwhatprovides
        (recompute_considered_in_pool st).1).1) =
      ((make_provides_ready pool_createwhatprovides
        (recompute_considered_in_pool st).1).1, false) := by
    have h2 := recompute_of_uptodate (solve_setup st) (solve_setup_uptodate st)
    simpa [solve_setup] using h2
  unfold module_solve goal_resolve tier_strict_result tier_best_result tier_goal_result
    tier_weak_result weak_pool solve_setup
  simp only [hE, Bool.false_eq_true, if_false, hset]
  rfl

lemma module_solve_strict_ok (oracle : Oracle) (sys : SystemState) (items : List ModuleItem)
    (st : Impl) (h : items ≠ [])
    (h1 : (tier_strict_result oracle sys items st).problem = false) :
    module_solve oracle sys items st =
      (([], ModuleErrorType.NO_ERROR),
        set_active_modules (solve_setup st) (tier_strict_result oracle sys items st),
        [Tier.strict]) := by
  rw [module_solve_eq oracle sys items st h, if_pos h1]

lemma module_solve_best_ok (oracle : Oracle) (sys : SystemState) (items : List ModuleItem)
    (st : Impl) (h : items ≠ [])
    (h1 : (tier_strict_result oracle sys items st).problem = true)
    (h2 : (tier_best_result oracle sys items st).problem = false) :
    module_solve oracle sys items st =
      (([], ModuleErrorType.ERROR_IN_DEFAULTS),
        set_active_modules (solve_setup st) (tier_best_result oracle sys items st),
        [Tier.strict, Tier.best]) := by
  rw [module_solve_eq oracle sys items st h, if_neg (by simp [h1]), if_pos h2]

lemma module_solve_goal_ok (oracle : Oracle) (sys : SystemState) (items : List ModuleItem)
    (st : Impl) (h : items ≠ [])
    (h1 : (tier_strict_result oracle sys items st).problem = true)
    (h2 : (tier_best_result oracle sys items st).problem = true)
    (h3 : (tier_goal_result oracle sys items st).problem = false) :
    module_solve oracle sys items st =
      (([], ModuleErrorType.ERROR_IN_LATEST),
        set_active_modules (solve_setup st) (tier_goal_result oracle sys items st),
        [Tier.strict, Tier.best, Tier.weakPref]) := by
  rw [module_solve_eq oracle sys items st h, if_neg (by simp [h1]), if_neg (by simp [h2]),
    if_pos h3]

lemma module_solve_weak_ok (oracle : Oracle) (sys : SystemState) (items : List ModuleItem)
    (st : Impl) (h : items ≠ [])
    (h1 : (tier_strict_result oracle sys items st).problem = true)
    (h2 : (tier_best_result oracle sys items st).problem = true)
    (h3 : (tier_goal_result oracle sys items st).problem = true)
    (h4 : (tier_weak_result oracle sys items st).problem = false) :
    module_solve oracle sys items st =
      (([], ModuleErrorType.ERROR),
        set_active_modules (weak_pool oracle sys items st)
          (tier_weak_result oracle sys items st),
        [Tier.strict, Tier.best, Tier.weakPref, Tier.weak]) := by
  rw [module_solve_eq oracle sys items st h, if_neg (by simp [h1]), if_neg (by simp [h2]),
    if_neg (by simp [h3]), if_pos h4]

lemma module_solve_all_fail (oracle : Oracle) (sys : SystemState) (items : List ModuleItem)
    (st : Impl) (h : items ≠ [])
    (h1 : (tier_strict_result oracle sys items st).problem = true)
    (h2 : (tier_best_result oracle sys items st).problem = true)
    (h3 : (tier_goal_result oracle sys items st).problem = true)
    (h4 : (tier_weak_result oracle sys items st).problem = true) :
    module_solve oracle sys items st =
      (([], ModuleErrorType.CANNOT_RESOLVE_MODULES),
        { weak_pool oracle sys items st with active_modules := [] },
        [Tier.strict, Tier.best, Tier.weakPref, Tier.weak]) := by
  rw [module_solve_eq oracle sys items st h, if_neg (by simp [h1]), if_neg (by simp [h2]),
    if_neg (by simp [h3]), if_neg (by simp [h4])]

lemma recompute_modules (st : Impl) :
    (recompute_considered_in_pool st).1.modules = st.modules := by
  unfold recompute_considered_in_pool
  split <;> rfl

lemma recompute_solvable_names (st : Impl) :
    (recompute_considered_in_pool st).1.solvable_names = st.solvable_names := by
  unfold recompute_considered_in_pool
  split <;> rfl

lemma recompute_active_modules (st : Impl) :
    (recompute_considered_in_pool st).1.active_modules = st.active_modules := by
  unfold recompute_considered_in_pool
  split <;> rfl

lemma solve_setup_modules (st : Impl) :
    (solve_setup st).modules = st.modules := by
  unfold solve_setup
  rw [make_provides_ready_ok]
  split
  · exact recompute_modules st
  · exact recompute_modules st

lemma solve_setup_solvable_names (st : Impl) :
    (solve_setup st).solvable_names = st.solvable_names := by
  unfold solve_setup
  rw [make_provides_ready_ok]
  split
  · exact recompute_solvable_names st
  · exact recompute_solvable_names st

lemma solve_setup_active_modules (st : Impl) :
    (solve_setup st).active_modules = st.active_modules := by
  unfold solve_setup
  rw [make_provides_ready_ok]
  split
  · exact recompute_active_modules st
  · exact recompute_active_modules st

lemma set_active_modules_of_empty (st : Impl) (g : GoalResult)
    (h : st.active_modules = []) :
    (set_active_modules st g).active_modules =
      matched_selection st.modules st.solvable_names g := by
  unfold set_active_modules matched_selection
  by_cases hg : g.has_transaction = false
  · simp [hg]
  · simp [hg, h]

lemma lookup_am_insert (am : List (Nat × ModuleItem)) (k k2 : Nat) (v : ModuleItem) :
    List.lookup k (am_insert am k2 v) =
      if k = k2 then some v else List.lookup k am := by
  induction am with
  | nil =>
    by_cases hk : k = k2
    · simp [am_insert, List.lookup, hk]
    · have hb : (k == k2) = false := by simp [hk]
      simp [am_insert, List.lookup, hb, hk]
  | cons kv rest ih =>
    obtain ⟨a, b⟩ := kv
    unfold am_insert
    by_cases h1 : k2 < a
    · rw [if_pos h1]
      by_cases hk : k = k2
      · have hb : (k == k2) = true := by simp [hk]
        simp [List.lookup, hb, hk]
      · have hb : (k == k2) = false := by simp [hk]
        simp [List.lookup, hb, hk]
    · rw [if_neg h1]
      by_cases h2 : k2 = a
      · rw [if_pos h2]
        by_cases hk : k = k2
        · have hb : (k == k2) = true := by simp [hk]
          simp [List.lookup, hb, hk]
        · have hb : (k == k2) = false := by simp [hk]
          have hba : (k == a) = false := by
            have : ¬k = a := h2 ▸ hk
            simp [this]
          simp [List.lookup, hb, hk, hba]
      · rw [if_neg h2]
        by_cases hk : k = a
        · have hb : (k == a) = true := by simp [hk]
          have hkk2 : ¬k = k2 := by
            intro hh
            exact h2 (by rw [← hh, hk])
          simp [List.lookup, hb, hkk2]
        · have hb : (k == a) = false := by simp [hk]
          simp [List.lookup, hb, ih]

lemma lookup_am_insert_isSome (am : List (Nat × ModuleItem)) (k k2 : Nat) (v : ModuleItem)
    (h : (List.lookup k am).isSome = true) :
    (List.lookup k (am_insert am k2 v)).isSome = true := by
  rw [lookup_am_insert]
  by_cases hk : k = k2 <;> simp [hk, h]

lemma lookup_match_fold_isSome (ms : List ModuleItem) (nms : List String) :
    ∀ (am : List (Nat × ModuleItem)) (k : Nat), (List.lookup k am).isSome = true →
      (List.lookup k
        (ms.foldl
          (fun am m =>
            if m.name_stream_staticcontext ∈ nms then am_insert am m.id m else am)
          am)).isSome = true := by
  induction ms with
  | nil =>
    intro am k h
    simpa using h
  | cons m rest ih =>
    intro am k h
    simp only [List.foldl_cons]
    by_cases hm : m.name_stream_staticcontext ∈ nms
    · simp only [if_pos hm]
      exact ih (am_insert am m.id m) k (lookup_am_insert_isSome am k m.id m h)
    · simp only [if_neg hm]
      exact ih am k h

/-- C6: the tiered solve with an empty candidate list clears the Active
Module Map, returns the outcome `(no problems, NO_ERROR)`, resolves no goal
attempt (the attempt trace is empty), and leaves the rest of the state —
the considered cache, the provides flag, the Exclude Set — untouched. -/
theorem c6_empty_candidates (oracle : Oracle) (sys : SystemState) (st : Impl) :
    module_solve oracle sys [] st =
      (([], ModuleErrorType.NO_ERROR), { st with active_modules := [] }, []) := rfl

/-- C1 (amended): for every non-empty candidate list the tiered solve
resolves the goal attempts strictly in the order Strict, Best,
Weak-preferred, Weak; the first attempt the solver reports problem-free ends
the solve — no later attempt is resolved, the severity is NoError,
ErrorInDefaults, ErrorInLatest or Error according to the winning tier, and
the winning attempt's selection is entered into the Active Module Map by
name+stream+context matching via `set_active_modules`.  The map equals
exactly the winning tier's matched selection when it was empty beforehand;
a non-empty prior map is merged into, not replaced (see the
counterexample). -/
theorem c1_tiered_solve_order (oracle : Oracle) (sys : SystemState)
    (items : List ModuleItem) (st : Impl) (h : items ≠ []) :
    ((tier_strict_result oracle sys items st).problem = false →
      module_solve oracle sys items st =
        (([], ModuleErrorType.NO_ERROR),
          set_active_modules (solve_setup st) (tier_strict_result oracle sys items st),
          [Tier.strict])) ∧
    ((tier_strict_result oracle sys items st).problem = true →
      (tier_best_result oracle sys items st).problem = false →
      module_solve oracle sys items st =
        (([], ModuleErrorType.ERROR_IN_DEFAULTS),
          set_active_modules (solve_setup st) (tier_best_result oracle sys items st),
          [Tier.strict, Tier.best])) ∧
    ((tier_strict_result oracle sys items st).problem = true →
      (tier_best_result oracle sys items st).problem = true →
      (tier_goal_result oracle sys items st).problem = false →
      module_solve oracle sys items st =
        (([], ModuleErrorType.ERROR_IN_LATEST),
          set_active_modules (solve_setup st) (tier_goal_result oracle sys items st),
          [Tier.strict, Tier.best, Tier.weakPref])) ∧
    ((tier_strict_result oracle sys items st).problem = true →
      (tier_best_result oracle sys items st).problem = true →
      (tier_goal_result oracle sys items st).problem = true →
      (tier_weak_result oracle sys items st).problem = false →
      module_solve oracle sys items st =
        (([], ModuleErrorType.ERROR),
          set_active_modules (weak_pool oracle sys items st)
            (tier_weak_result oracle sys items st),
          [Tier.strict, Tier.best, Tier.weakPref, Tier.weak])) ∧
    ((tier_strict_result oracle sys items st).problem = true →
      (tier_best_result oracle sys items st).problem = true →
      (tier_goal_result oracle sys items st).problem = true →
      (tier_weak_result oracle sys items st).problem = true →
      module_solve oracle sys items st =
        (([], ModuleErrorType.CANNOT_RESOLVE_MODULES),
          { weak_pool oracle sys items st with active_modules := [] },
          [Tier.strict, Tier.best, Tier.weakPref, Tier.weak])) ∧
    (st.active_modules = [] →
      (tier_strict_result oracle sys items st).problem = false →
      (module_solve oracle sys items st).2.1.active_modules =
        matched_selection st.modules st.solvable_names
          (tier_strict_result oracle sys items st)) := by
  refine ⟨fun h1 => module_solve_strict_ok oracle sys items st h h1,
    fun h1 h2 => module_solve_best_ok oracle sys items st h h1 h2,
    fun h1 h2 h3 => module_solve_goal_ok oracle sys items st h h1 h2 h3,
    fun h1 h2 h3 h4 => module_solve_weak_ok oracle sys items st h h1 h2 h3 h4,
    fun h1 h2 h3 h4 => module_solve_all_fail oracle sys items st h h1 h2 h3 h4,
    fun ham h1 => ?_⟩
  rw [module_solve_strict_ok oracle sys items st h h1]
  have h0 : (solve_setup st).active_modules = [] := by
    rw [solve_setup_active_modules]
    exact ham
  rw [set_active_modules_of_empty (solve_setup st) _ h0, solve_setup_modules,
    solve_setup_solvable_names]

/-- Witness for C1 at a concrete input: a single candidate and an oracle
whose strict attempt is problem-free; the solve ends at the strict tier with
severity NoError, resolving no later attempt. -/
theorem c1_tiered_solve_order_witness :
    let a : ModuleItem := ⟨"a", "s", "1", "c", none, "", [], 1⟩
    let st : Impl := ⟨2, ["", "a:s:c"], [a], [], some ∅, none, false, false, [], false⟩
    let oracle : Oracle := fun _ _ => ⟨false, [1], [], true⟩
    ([a] ≠ ([] : List ModuleItem)) ∧
      module_solve oracle [] [a] st =
        (([], ModuleErrorType.NO_ERROR),
          set_active_modules (solve_setup st) (tier_strict_result oracle [] [a] st),
          [Tier.strict]) :=
  ⟨by decide,
    (c1_tiered_solve_order (fun _ _ => ⟨false, [1], [], true⟩) []
        [⟨"a", "s", "1", "c", none, "", [], 1⟩]
        ⟨2, ["", "a:s:c"], [⟨"a", "s", "1", "c", none, "", [], 1⟩], [], some ∅, none,
          false, false, [], false⟩ (by decide)).1 (by decide)⟩

/-- Counterexample to C1 as stated: after an earlier solve left module a in
the Active Module Map, a second tiered solve whose strict attempt succeeds
selecting only module b yields a map still containing module a's entry —
the first problem-free attempt's selection does not determine the final
map (nothing clears the prior contents when the goal has a transaction). -/
theorem c1_stale_map_counterexample :
    let a : ModuleItem := ⟨"a", "s", "1", "c", none, "", [], 1⟩
    let b : ModuleItem := ⟨"b", "s", "1", "c", none, "", [], 2⟩
    let st0 : Impl :=
      ⟨3, ["", "a:s:c", "b:s:c"], [a, b], [], some ∅, none, false, false, [], false⟩
    let oracle : Oracle := fun jobs _ =>
      if jobs = [("module(a:s)", true, true)] then ⟨false, [1], [], true⟩
      else if jobs = [("module(b:s)", true, true)] then ⟨false, [2], [], true⟩
      else ⟨true, [], [], false⟩
    let st1 := (module_solve oracle [] [a] st0).2.1
    st1.active_modules = [(1, a)] ∧
    (tier_strict_result oracle [] [b] st1).problem = false ∧
    (module_solve oracle [] [b] st1).2.1.active_modules = [(1, a), (2, b)] ∧
    matched_selection st1.modules st1.solvable_names
      (tier_strict_result oracle [] [b] st1) = [(2, b)] := by decide

/-- C9 (amended): `set_active_modules` clears the Active Module Map only
when the goal carries no transaction; in that case — and whenever the map is
empty beforehand — the rebuilt map is exactly the goal's matched selection.
On a goal with a transaction the selection is merged into the existing map
(every key already present survives), so after a successful solve the map
may retain entries of earlier solves (see the counterexample).  When every
attempt of a solve fails, `module_solve` clears the map. -/
theorem c9_active_map_lifecycle (st : Impl) (g : GoalResult) (oracle : Oracle)
    (sys : SystemState) (items : List ModuleItem) :
    (g.has_transaction = false →
      (set_active_modules st g).active_modules =
        matched_selection st.modules st.solvable_names g) ∧
    (st.active_modules = [] →
      (set_active_modules st g).active_modules =
        matched_selection st.modules st.solvable_names g) ∧
    (g.has_transaction = true →
      ∀ k, (List.lookup k st.active_modules).isSome = true →
        (List.lookup k (set_active_modules st g).active_modules).isSome = true) ∧
    (items ≠ [] →
      (tier_strict_result oracle sys items st).problem = true →
      (tier_best_result oracle sys items st).problem = true →
      (tier_goal_result oracle sys items st).problem = true →
      (tier_weak_result oracle sys items st).problem = true →
      (module_solve oracle sys items st).2.1.active_modules = []) := by
  refine ⟨fun hg => ?_, fun ham => set_active_modules_of_empty st g ham,
    fun hg k hk => ?_, fun h h1 h2 h3 h4 => ?_⟩
  · unfold set_active_modules matched_selection
    simp [hg]
  · unfold set_active_modules
    have hc : ¬g.has_transaction = false := by simp [hg]
    simp only [if_neg hc]
    exact lookup_match_fold_isSome st.modules _ st.active_modules k hk
  · rw [module_solve_all_fail oracle sys items st h h1 h2 h3 h4]

/-- Witness for C9 at a concrete input: a goal without a transaction clears
the prior map and rebuilds it as the matched selection. -/
theorem c9_active_map_lifecycle_witness :
    let a : ModuleItem := ⟨"a", "s", "1", "c", none, "", [], 1⟩
    let st : Impl :=
      ⟨2, ["", "a:s:c"], [a], [], some ∅, none, false, false, [(9, a)], false⟩
    let g : GoalResult := ⟨false, [1], [], false⟩
    (g.has_transaction = false) ∧
      (set_active_modules st g).active_modules =
        matched_selection st.modules st.solvable_names g :=
  ⟨by decide,
    (c9_active_map_lifecycle
        ⟨2, ["", "a:s:c"], [⟨"a", "s", "1", "c", none, "", [], 1⟩], [], some ∅, none,
          false, false, [(9, ⟨"a", "s", "1", "c", none, "", [], 1⟩)], false⟩
        ⟨false, [1], [], false⟩ (fun _ _ => ⟨true, [], [], false⟩) [] []).1 (by decide)⟩

/-- Counterexample to C9 as stated: a first solve activates module x; a
second solve succeeds selecting only module y, yet module x's entry is still
in the Active Module Map afterwards (its key is absent from the second
solve's matched selection), so the map was not cleared and rebuilt on the
second resolution. -/
theorem c9_stale_entry_counterexample :
    let x : ModuleItem := ⟨"x", "t", "1", "k", none, "", [], 5⟩
    let y : ModuleItem := ⟨"y", "t", "1", "k", none, "", [], 7⟩
    let st0 : Impl :=
      ⟨8, ["", "", "", "", "", "x:t:k", "", "y:t:k"], [x, y], [], some ∅, none, false,
        false, [], false⟩
    let oracle : Oracle := fun jobs _ =>
      if jobs = [("module(x:t)", true, true)] then ⟨false, [5], [], true⟩
      else if jobs = [("module(y:t)", true, true)] then ⟨false, [7], [], true⟩
      else ⟨true, [], [], false⟩
    let st1 := (module_solve oracle [] [x] st0).2.1
    (module_solve oracle [] [y] st1).1.2 = ModuleErrorType.NO_ERROR ∧
    List.lookup 5 (module_solve oracle [] [y] st1).2.1.active_modules = some x ∧
    List.lookup 5 (matched_selection st1.modules st1.solvable_names
      (tier_strict_result oracle [] [y] st1)) = none := by decide

/-- C2 (amended): in a tiered solve whose first three attempts fail, every
item the weak-preferred attempt reports as mutually conflicting is in the
Exclude Set of the pool state in which the weak attempt resolves, and —
provided the external solver only selects considered items — no conflicting
item is among the weak attempt's selected items.  A conflicting item can
nevertheless appear in the Weak-tier Active Module Map when it shares its
name+stream+context key with a selected item (see the counterexample). -/
theorem c2_weak_preferred_conflicts (oracle : Oracle) (sys : SystemState)
    (items : List ModuleItem) (st : Impl) (e cs : Finset Nat)
    (hex : st.excludes = some e)
    (hcons : (weak_pool oracle sys items st).considered = some cs)
    (hsub : ∀ i ∈ (tier_weak_result oracle sys items st).installs, i ∈ cs) :
    (∀ x ∈ (tier_goal_result oracle sys items st).conflicting,
        excludes_mem (weak_pool oracle sys items st) x = true) ∧
    (∀ x ∈ (tier_goal_result oracle sys items st).conflicting,
        x ∉ (tier_weak_result oracle sys items st).installs) := by
  have hse : (solve_setup st).excludes = some e := by
    rw [solve_setup_excludes]
    exact hex
  have hfold : ((tier_goal_result oracle sys items st).conflicting.foldl excludes_add
      (solve_setup st)).excludes =
      some (e ∪ (tier_goal_result oracle sys items st).conflicting.toFinset) :=
    foldl_excludes_add_excludes _ (solve_setup st) e hse
  have hwex : (weak_pool oracle sys items st).excludes =
      some (e ∪ (tier_goal_result oracle sys items st).conflicting.toFinset) := by
    unfold weak_pool
    rw [recompute_excludes]
    exact hfold
  constructor
  · intro x hx
    unfold excludes_mem
    rw [hwex]
    simp [Finset.mem_union, List.mem_toFinset, hx]
  · intro x hx hmem
    have hne : (tier_goal_result oracle sys items st).conflicting ≠ [] :=
      List.ne_nil_of_mem hx
    have hdirty := foldl_excludes_add_dirty _ (solve_setup st) hne
    have hw : (weak_pool oracle sys items st).considered =
        some (all_items_minus_excludes
          ((tier_goal_result oracle sys items st).conflicting.foldl excludes_add
            (solve_setup st))) := by
      unfold weak_pool
      rw [recompute_of_dirty _ hdirty]
    rw [hw] at hcons
    have hcs : cs = all_items_minus_excludes
        ((tier_goal_result oracle sys items st).conflicting.foldl excludes_add
          (solve_setup st)) := by
      injection hcons with hval
      exact hval.symm
    have hxcs := hsub x hmem
    rw [hcs] at hxcs
    unfold all_items_minus_excludes at hxcs
    rw [hfold] at hxcs
    simp only [Finset.mem_sdiff, Finset.mem_union, List.mem_toFinset] at hxcs
    exact hxcs.2 (Or.inr hx)

/-- Witness for C2 at a concrete input: the first three attempts fail, the
weak-preferred attempt reports item 1 conflicting; before the weak attempt
runs, item 1 is excluded and the considered set is `{0, 2}`, so the weak
attempt (which selects item 2 from the considered set) never selects it. -/
theorem c2_weak_preferred_conflicts_witness :
    let a : ModuleItem := ⟨"a", "s", "1", "c", none, "", [], 1⟩
    let st : Impl := ⟨3, ["", "a:s:c", "a:s:c"], [a], [], some ∅, none, false, false,
      [], false⟩
    let oracle : Oracle := fun _ c =>
      if c = some ({0, 2} : Finset Nat) then ⟨false, [2], [], true⟩
      else ⟨true, [], [1], false⟩
    (st.excludes = some (∅ : Finset Nat)) ∧
    ((weak_pool oracle [] [a] st).considered = some ({0, 2} : Finset Nat)) ∧
    (∀ i ∈ (tier_weak_result oracle [] [a] st).installs, i ∈ ({0, 2} : Finset Nat)) ∧
    (∀ x ∈ (tier_goal_result oracle [] [a] st).conflicting,
        excludes_mem (weak_pool oracle [] [a] st) x = true) ∧
    (∀ x ∈ (tier_goal_result oracle [] [a] st).conflicting,
        x ∉ (tier_weak_result oracle [] [a] st).installs) :=
  ⟨by decide, by decide, by decide,
    (c2_weak_preferred_conflicts
        (fun _ c =>
          if c = some ({0, 2} : Finset Nat) then ⟨false, [2], [], true⟩
          else ⟨true, [], [1], false⟩) []
        [⟨"a", "s", "1", "c", none, "", [], 1⟩]
        ⟨3, ["", "a:s:c", "a:s:c"], [⟨"a", "s", "1", "c", none, "", [], 1⟩], [], some ∅,
          none, false, false, [], false⟩ ∅ {0, 2} (by decide) (by decide)
        (by decide)).1,
    (c2_weak_preferred_conflicts
        (fun _ c =>
          if c = some ({0, 2} : Finset Nat) then ⟨false, [2], [], true⟩
          else ⟨true, [], [1], false⟩) []
        [⟨"a", "s", "1", "c", none, "", [], 1⟩]
        ⟨3, ["", "a:s:c", "a:s:c"], [⟨"a", "s", "1", "c", none, "", [], 1⟩], [], some ∅,
          none, false, false, [], false⟩ ∅ {0, 2} (by decide) (by decide)
        (by decide)).2⟩

/-- Counterexample to C2 as stated: items 1 and 2 are two builds sharing the
name+stream+context key `m:s:c`.  The weak-preferred attempt reports item 1
conflicting; item 1 is duly excluded and the weak attempt selects only item
2 — yet `set_active_modules` matches records by name, so the record with
item id 1 is entered into the Weak-tier Active Module Map anyway. -/
theorem c2_conflicting_in_weak_map_counterexample :
    let m1 : ModuleItem := ⟨"m", "s", "1", "c", none, "", [], 1⟩
    let m2 : ModuleItem := ⟨"m", "s", "2", "c", none, "", [], 2⟩
    let st : Impl :=
      ⟨3, ["", "m:s:c", "m:s:c"], [m1, m2], [], some ∅, none, false, false, [], false⟩
    let oracle : Oracle := fun _ c =>
      if c = some ({0, 2} : Finset Nat) then ⟨false, [2], [], true⟩
      else ⟨true, [], [1], false⟩
    (tier_goal_result oracle [] [m1] st).conflicting = [1] ∧
    (tier_weak_result oracle [] [m1] st).installs = [2] ∧
    (module_solve oracle [] [m1] st).1.2 = ModuleErrorType.ERROR ∧
    List.lookup 1 (module_solve oracle [] [m1] st).2.1.active_modules = some m1 := by
  decide

lemma assign_context_matched (statics : List ModuleItem) (d s : ModuleItem)
    (h : statics.find? (fun s2 =>
        s2.get_name_stream = d.get_name_stream ∧
          s2.requires_string = d.requires_string) = some s) :
    (assign_context statics d).computed_static_context = some s.context := by
  simp only [Bool.decide_and] at h
  simp [assign_context, h]

lemma assign_context_unmatched (statics : List ModuleItem) (d : ModuleItem)
    (h : statics.find? (fun s2 =>
        s2.get_name_stream = d.get_name_stream ∧
          s2.requires_string = d.requires_string) = none) :
    (assign_context statics d).computed_static_context =
      some (if d.requires_string = "" then "NoRequires" else d.requires_string) := by
  simp only [Bool.decide_and] at h
  simp [assign_context, h]

/-- C3 (amended): the resolver commits every pending dynamic-context record
after assigning it a context label: the matched static group's context label
when some already-resolved record shares the name+stream key and the
requires string (the first such record in registry order), otherwise the
requires string itself — the sentinel `"NoRequires"` when it is empty.  Two
unmatched records with identical signatures hence get identical labels, and
unmatched records with differing signatures get different labels, except
for the sentinel collision: an empty signature and the literal signature
`"NoRequires"` synthesize the same label (see the counterexample). -/
theorem c3_static_context_resolver (st : Impl) :
    ((add_modules_without_static_context st).modules =
        st.modules ++ st.modules_without_static_context.map (assign_context st.modules) ∧
      (add_modules_without_static_context st).modules_without_static_context = []) ∧
    (∀ d s : ModuleItem,
      st.modules.find? (fun s2 =>
          s2.get_name_stream = d.get_name_stream ∧
            s2.requires_string = d.requires_string) = some s →
      (assign_context st.modules d).computed_static_context = some s.context) ∧
    (∀ d : ModuleItem,
      st.modules.find? (fun s2 =>
          s2.get_name_stream = d.get_name_stream ∧
            s2.requires_string = d.requires_string) = none →
      (assign_context st.modules d).computed_static_context =
        some (if d.requires_string = "" then "NoRequires" else d.requires_string)) ∧
    (∀ d1 d2 : ModuleItem,
      st.modules.find? (fun s2 =>
          s2.get_name_stream = d1.get_name_stream ∧
            s2.requires_string = d1.requires_string) = none →
      st.modules.find? (fun s2 =>
          s2.get_name_stream = d2.get_name_stream ∧
            s2.requires_string = d2.requires_string) = none →
      d1.requires_string = d2.requires_string →
      (assign_context st.modules d1).computed_static_context =
        (assign_context st.modules d2).computed_static_context) ∧
    (∀ d1 d2 : ModuleItem,
      st.modules.find? (fun s2 =>
          s2.get_name_stream = d1.get_name_stream ∧
            s2.requires_string = d1.requires_string) = none →
      st.modules.find? (fun s2 =>
          s2.get_name_stream = d2.get_name_stream ∧
            s2.requires_string = d2.requires_string) = none →
      d1.requires_string ≠ d2.requires_string →
      ¬(d1.requires_string = "" ∧ d2.requires_string = "NoRequires") →
      ¬(d1.requires_string = "NoRequires" ∧ d2.requires_string = "") →
      (assign_context st.modules d1).computed_static_context ≠
        (assign_context st.modules d2).computed_static_context) := by
  refine ⟨?_, fun d s h => assign_context_matched st.modules d s h,
    fun d h => assign_context_unmatched st.modules d h, fun d1 d2 h1 h2 hrs => ?_,
    fun d1 d2 h1 h2 hne hx1 hx2 => ?_⟩
  · constructor
    · unfold add_modules_without_static_context
      by_cases h : st.modules_without_static_context.isEmpty
      · have h2 : st.modules_without_static_context = [] := by
          simpa [List.isEmpty_iff] using h
        simp [h, h2]
      · simp [h]
    · unfold add_modules_without_static_context
      by_cases h : st.modules_without_static_context.isEmpty
      · have h2 : st.modules_without_static_context = [] := by
          simpa [List.isEmpty_iff] using h
        simp [h, h2]
      · simp [h]
  · rw [assign_context_unmatched st.modules d1 h1, assign_context_unmatched st.modules d2 h2,
      hrs]
  · rw [assign_context_unmatched st.modules d1 h1, assign_context_unmatched st.modules d2 h2]
    by_cases e1 : d1.requires_string = ""
    · have e2 : ¬d2.requires_string = "" := fun hh => hne (by rw [e1, hh])
      have e3 : ¬d2.requires_string = "NoRequires" := fun hh => hx1 ⟨e1, hh⟩
      simp [e1, e2]
      exact fun hh => e3 hh.symm
    · by_cases e2 : d2.requires_string = ""
      · have e3 : ¬d1.requires_string = "NoRequires" := fun hh => hx2 ⟨hh, e2⟩
        simp [e1, e2]
        exact e3
      · simp [e1, e2]
        exact hne

/-- Witness for C3 at a concrete input: a dynamic-context record matching a
static-context record (same name+stream, same requires string) adopts that
record's context label. -/
theorem c3_static_context_resolver_witness :
    let s0 : ModuleItem := ⟨"n", "s", "1", "ctx", none, "r1", [], 1⟩
    let d : ModuleItem := ⟨"n", "s", "2", "", none, "r1", [], 2⟩
    let st : Impl := ⟨1, [], [s0], [d], some ∅, none, false, false, [], false⟩
    (st.modules.find? (fun s2 =>
        s2.get_name_stream = d.get_name_stream ∧
          s2.requires_string = d.requires_string) = some s0) ∧
    (assign_context st.modules d).computed_static_context = some "ctx" :=
  ⟨by decide,
    (c3_static_context_resolver
        ⟨1, [], [⟨"n", "s", "1", "ctx", none, "r1", [], 1⟩], [⟨"n", "s", "2", "", none,
          "r1", [], 2⟩], some ∅, none, false, false, [], false⟩).2.1
      ⟨"n", "s", "2", "", none, "r1", [], 2⟩ ⟨"n", "s", "1", "ctx", none, "r1", [], 1⟩
      (by decide)⟩

/-- Counterexample to C3 as stated: two unmatched dynamic-context records
with differing signatures — the empty signature and the literal signature
`"NoRequires"` — receive the same synthesized context label. -/
theorem c3_sentinel_collision_counterexample :
    let d1 : ModuleItem := ⟨"n", "s", "1", "", none, "", [], 1⟩
    let d2 : ModuleItem := ⟨"n", "s", "2", "", none, "NoRequires", [], 2⟩
    d1.requires_string ≠ d2.requires_string ∧
    (assign_context [] d1).computed_static_context = some "NoRequires" ∧
    (assign_context [] d2).computed_static_context = some "NoRequires" := by decide

lemma make_provides_ready_error (cwp : Option (Finset Nat) → Except Unit Unit)
    (st : Impl) (e : Unit) (hr : st.provides_ready = false)
    (hc : cwp none = Except.error e) :
    make_provides_ready cwp st = ({ st with considered := none }, some e) := by
  unfold make_provides_ready
  rw [if_neg (by simp [hr])]
  simp [hc]

lemma make_provides_ready_success (cwp : Option (Finset Nat) → Except Unit Unit)
    (st : Impl) (u : Unit) (hc : cwp none = Except.ok u) :
    make_provides_ready cwp st =
      (if st.provides_ready then st else { st with provides_ready := true }, none) := by
  unfold make_provides_ready
  split
  · rename_i h
    simp [h]
  · rename_i h
    simp only [Bool.not_eq_true] at h
    simp [hc, h]

/-- C7 (amended): the provides-index preparation is a no-op once the index
is ready; otherwise it detaches the considered bitmap (the index builder is
invoked on the detached — null — bitmap, so it ignores exclusions and the
result depends on the builder only through its behaviour there) and, when
index construction succeeds, restores the original bitmap: on every
error-free exit the pool's considered bitmap equals its value on entry.  If
index construction raises, however, the error propagates with the bitmap
left detached, not restored (see the counterexample). -/
theorem c7_provides_ready_swap (cwp : Option (Finset Nat) → Except Unit Unit)
    (st : Impl) :
    (make_provides_ready cwp st = make_provides_ready (fun _ => cwp none) st) ∧
    ((make_provides_ready cwp st).2 = none →
      (make_provides_ready cwp st).1.considered = st.considered) ∧
    (∀ e0 : Unit, (make_provides_ready cwp st).2 = some e0 →
      (make_provides_ready cwp st).1.considered = none ∧
      (make_provides_ready cwp st).1.provides_ready = false) := by
  by_cases hr : st.provides_ready
  · have h1 : make_provides_ready cwp st = (st, none) := by
      unfold make_provides_ready
      simp [hr]
    have h2 : make_provides_ready (fun _ => cwp none) st = (st, none) := by
      unfold make_provides_ready
      simp [hr]
    refine ⟨by rw [h1, h2], fun _ => by rw [h1], fun e0 he => ?_⟩
    rw [h1] at he
    simp at he
  · have hr2 : st.provides_ready = false := by simpa using hr
    cases hcw : cwp none with
    | error e =>
      have h1 := make_provides_ready_error cwp st e hr2 hcw
      have h2 := make_provides_ready_error (fun _ => Except.error e) st e hr2 rfl
      refine ⟨by rw [h1, h2], fun hnone => ?_, fun e0 _ => ?_⟩
      · rw [h1] at hnone
        simp at hnone
      · rw [h1]
        exact ⟨rfl, hr2⟩
    | ok u =>
      have h1 := make_provides_ready_success cwp st u hcw
      have h2 := make_provides_ready_success (fun _ => Except.ok u) st u rfl
      refine ⟨by rw [h1, h2], fun _ => ?_, fun e0 he => ?_⟩
      · rw [h1]
        simp [hr2]
      · rw [h1] at he
        simp at he

/-- Witness for C7 at a concrete input: with the index not yet ready and a
successful index construction, the considered bitmap after the call equals
its value on entry. -/
theorem c7_provides_ready_swap_witness :
    let st : Impl :=
      ⟨1, [], [], [], some ∅, some ({0} : Finset Nat), true, false, [], false⟩
    ((make_provides_ready (fun _ => Except.ok ()) st).2 = none) ∧
    (make_provides_ready (fun _ => Except.ok ()) st).1.considered = st.considered :=
  ⟨by decide,
    (c7_provides_ready_swap (fun _ => Except.ok ())
        ⟨1, [], [], [], some ∅, some ({0} : Finset Nat), true, false, [], false⟩).2.1
      (by decide)⟩

/-- Counterexample to C7 as stated: when index construction raises, the
error exit leaves the pool's considered bitmap detached (null) instead of
restoring the value it had on entry — there is no scope guard around the
swap. -/
theorem c7_no_restore_on_error_counterexample :
    let st : Impl :=
      ⟨1, [], [], [], some ∅, some ({0} : Finset Nat), true, false, [], false⟩
    let cwp : Option (Finset Nat) → Except Unit Unit := fun _ => Except.error ()
    (make_provides_ready cwp st).2 = some () ∧
    st.considered = some ({0} : Finset Nat) ∧
    (make_provides_ready cwp st).1.considered = none := by decide

/-- C8: the considered-set refresh is idempotent — with the cache clean
(no exclude added since the last refresh) the call performs no bitset
recomputation and leaves the state unchanged; with the cache dirty it resets
the bitset to all items minus the current Exclude Set and marks the cache
clean; calling refresh again right after any refresh recomputes nothing. -/
theorem c8_considered_refresh_idempotent (st : Impl) :
    (st.considered_uptodate = true → recompute_considered_in_pool st = (st, false)) ∧
    (st.considered_uptodate = false →
      (recompute_considered_in_pool st).2 = true ∧
      (recompute_considered_in_pool st).1 =
        { st with
            considered := some (all_items_minus_excludes st)
            considered_uptodate := true }) ∧
    recompute_considered_in_pool (recompute_considered_in_pool st).1 =
      ((recompute_considered_in_pool st).1, false) := by
  refine ⟨fun h => recompute_of_uptodate st h, fun h => ?_, ?_⟩
  · rw [recompute_of_dirty st h]
    exact ⟨rfl, rfl⟩
  · exact recompute_of_uptodate _ (recompute_uptodate st)

/-- Witness for C8 at a concrete input: a dirty cache with Exclude Set
`{1}` over three items recomputes the bitset to `{0, 2}` once; the repeated
call recomputes nothing. -/
theorem c8_considered_refresh_idempotent_witness :
    let st : Impl := ⟨3, [], [], [], some ({1} : Finset Nat), none, false, false, [],
      false⟩
    (st.considered_uptodate = false) ∧
    (recompute_considered_in_pool st).2 = true ∧
    (recompute_considered_in_pool st).1 =
      { st with
          considered := some (all_items_minus_excludes st)
          considered_uptodate := true } ∧
    recompute_considered_in_pool (recompute_considered_in_pool st).1 =
      ((recompute_considered_in_pool st).1, false) :=
  ⟨by decide,
    ((c8_considered_refresh_idempotent
        ⟨3, [], [], [], some ({1} : Finset Nat), none, false, false, [], false⟩).2.1
      (by decide)).1,
    ((c8_considered_refresh_idempotent
        ⟨3, [], [], [], some ({1} : Finset Nat), none, false, false, [], false⟩).2.1
      (by decide)).2,
    (c8_considered_refresh_idempotent
        ⟨3, [], [], [], some ({1} : Finset Nat), none, false, false, [], false⟩).2.2⟩

lemma is_candidate_iff (sys : SystemState) (defaults : DefaultStreams) (m : ModuleItem) :
    is_candidate sys defaults m = true ↔
      (module_state_of sys m.name ≠ ModuleState.DISABLED ∧
        ((module_state_of sys m.name = ModuleState.ENABLED ∧
            enabled_stream_of sys m.name = m.stream) ∨
          get_default_stream defaults m.name = m.stream)) := by
  unfold is_candidate module_state_of enabled_stream_of
  cases hl : List.lookup m.name sys with
  | none => simp
  | some se =>
    obtain ⟨state, estream⟩ := se
    cases state <;> simp

lemma is_disabled_iff (sys : SystemState) (m : ModuleItem) :
    is_disabled sys m = true ↔ module_state_of sys m.name = ModuleState.DISABLED := by
  unfold is_disabled module_state_of
  cases hl : List.lookup m.name sys with
  | none => simp
  | some se =>
    obtain ⟨state, estream⟩ := se
    cases state <;> simp

lemma selector_fold_spec (sys : SystemState) (defaults : DefaultStreams)
    (ms : List ModuleItem) :
    ∀ (st : Impl) (cands : List ModuleItem) (es : String) (e : Finset Nat),
      st.excludes = some e →
      ((ms.foldl (selector_step sys defaults) (st, cands, es)).2.1 =
        cands ++ ms.filter (is_candidate sys defaults)) ∧
      ((ms.foldl (selector_step sys defaults) (st, cands, es)).1.excludes =
        some (e ∪ ((ms.filter (is_disabled sys)).map ModuleItem.id).toFinset)) := by
  induction ms with
  | nil =>
    intro st cands es e he
    simp [he]
  | cons m rest ih =>
    intro st cands es e he
    simp only [List.foldl_cons]
    cases hl : List.lookup m.name sys with
    | none =>
      have hdis : is_disabled sys m = false := by simp [is_disabled, hl]
      by_cases hd : get_default_stream defaults m.name = m.stream
      · have hstep : selector_step sys defaults (st, cands, es) m =
            (st, cands ++ [m], es) := by
          simp [selector_step, hl, hd]
        have hc : is_candidate sys defaults m = true := by simp [is_candidate, hl, hd]
        obtain ⟨h1, h2⟩ := ih st (cands ++ [m]) es e he
        rw [hstep]
        refine ⟨?_, ?_⟩
        · rw [h1]
          simp [List.filter_cons, hc]
        · rw [h2]
          simp [List.filter_cons, hdis]
      · have hstep : selector_step sys defaults (st, cands, es) m = (st, cands, es) := by
          simp [selector_step, hl, hd]
        have hc : is_candidate sys defaults m = false := by simp [is_candidate, hl, hd]
        obtain ⟨h1, h2⟩ := ih st cands es e he
        rw [hstep]
        refine ⟨?_, ?_⟩
        · rw [h1]
          simp [List.filter_cons, hc]
        · rw [h2]
          simp [List.filter_cons, hdis]
    | some se =>
      obtain ⟨state, estream⟩ := se
      cases state with
      | DISABLED =>
        have hstep : selector_step sys defaults (st, cands, es) m =
            (excludes_add st m.id, cands, estream) := by
          simp [selector_step, hl]
        have hc : is_candidate sys defaults m = false := by simp [is_candidate, hl]
        have hdis : is_disabled sys m = true := by simp [is_disabled, hl]
        have he2 : (excludes_add st m.id).excludes = some (insert m.id e) := by
          simp [excludes_add, he]
        obtain ⟨h1, h2⟩ := ih (excludes_add st m.id) cands estream (insert m.id e) he2
        rw [hstep]
        refine ⟨?_, ?_⟩
        · rw [h1]
          simp [List.filter_cons, hc]
        · rw [h2]
          simp only [List.filter_cons, hdis, if_pos, List.map_cons, List.toFinset_cons]
          rw [Finset.insert_union, Finset.union_insert]
      | ENABLED =>
        have hdis : is_disabled sys m = false := by simp [is_disabled, hl]
        by_cases hs : estream = m.stream
        · have hstep : selector_step sys defaults (st, cands, es) m =
              (st, cands ++ [m], estream) := by
            simp [selector_step, hl, hs]
          have hc : is_candidate sys defaults m = true := by simp [is_candidate, hl, hs]
          obtain ⟨h1, h2⟩ := ih st (cands ++ [m]) estream e he
          rw [hstep]
          refine ⟨?_, ?_⟩
          · rw [h1]
            simp [List.filter_cons, hc]
          · rw [h2]
            simp [List.filter_cons, hdis]
        · by_cases hd : get_default_stream defaults m.name = m.stream
          · have hstep : selector_step sys defaults (st, cands, es) m =
                (st, cands ++ [m], estream) := by
              simp [selector_step, hl, hs, hd]
            have hc : is_candidate sys defaults m = true := by
              simp [is_candidate, hl, hd]
            obtain ⟨h1, h2⟩ := ih st (cands ++ [m]) estream e he
            rw [hstep]
            refine ⟨?_, ?_⟩
            · rw [h1]
              simp [List.filter_cons, hc]
            · rw [h2]
              simp [List.filter_cons, hdis]
          · have hstep : selector_step sys defaults (st, cands, es) m =
                (st, cands, estream) := by
              simp [selector_step, hl, hs, hd]
            have hc : is_candidate sys defaults m = false := by
              simp [is_candidate, hl, hs, hd]
            obtain ⟨h1, h2⟩ := ih st cands estream e he
            rw [hstep]
            refine ⟨?_, ?_⟩
            · rw [h1]
              simp [List.filter_cons, hc]
            · rw [h2]
              simp [List.filter_cons, hdis]
      | AVAILABLE =>
        have hdis : is_disabled sys m = false := by simp [is_disabled, hl]
        by_cases hd : get_default_stream defaults m.name = m.stream
        · have hstep : selector_step sys defaults (st, cands, es) m =
              (st, cands ++ [m], estream) := by
            simp [selector_step, hl, hd]
          have hc : is_candidate sys defaults m = true := by simp [is_candidate, hl, hd]
          obtain ⟨h1, h2⟩ := ih st (cands ++ [m]) estream e he
          rw [hstep]
          refine ⟨?_, ?_⟩
          · rw [h1]
            simp [List.filter_cons, hc]
          · rw [h2]
            simp [List.filter_cons, hdis]
        · have hstep : selector_step sys defaults (st, cands, es) m =
              (st, cands, estream) := by
            simp [selector_step, hl, hd]
          have hc : is_candidate sys defaults m = false := by
            simp [is_candidate, hl, hd]
          obtain ⟨h1, h2⟩ := ih st cands estream e he
          rw [hstep]
          refine ⟨?_, ?_⟩
          · rw [h1]
            simp [List.filter_cons, hc]
          · rw [h2]
            simp [List.filter_cons, hdis]

/-- C4: the candidate-selection loop of `resolve_active_module_items`,
record by record — a record whose persisted state is `DISABLED` has its
solver item added to the Exclude Set and is never a candidate; an `ENABLED`
record whose stream equals the persisted enabled-stream is a candidate; a
record that is neither (a missing persisted state counting as `AVAILABLE`)
whose stream equals its name's default stream is a candidate; any other
record is neither excluded nor a candidate (its exclusion status is exactly
what it was before the loop). -/
theorem c4_candidate_selection (sys : SystemState) (defaults : DefaultStreams)
    (st : Impl) (e : Finset Nat) (hex : st.excludes = some e)
    (hids : st.modules.Pairwise (fun m1 m2 => m1.id ≠ m2.id)) :
    ∀ m ∈ st.modules,
      (module_state_of sys m.name = ModuleState.DISABLED →
        excludes_mem (module_items_to_solve sys defaults st).1 m.id = true ∧
        m ∉ (module_items_to_solve sys defaults st).2) ∧
      (module_state_of sys m.name = ModuleState.ENABLED →
        enabled_stream_of sys m.name = m.stream →
        m ∈ (module_items_to_solve sys defaults st).2) ∧
      (module_state_of sys m.name ≠ ModuleState.DISABLED →
        ¬(module_state_of sys m.name = ModuleState.ENABLED ∧
            enabled_stream_of sys m.name = m.stream) →
        get_default_stream defaults m.name = m.stream →
        m ∈ (module_items_to_solve sys defaults st).2) ∧
      (module_state_of sys m.name ≠ ModuleState.DISABLED →
        ¬(module_state_of sys m.name = ModuleState.ENABLED ∧
            enabled_stream_of sys m.name = m.stream) →
        get_default_stream defaults m.name ≠ m.stream →
        m ∉ (module_items_to_solve sys defaults st).2 ∧
        excludes_mem (module_items_to_solve sys defaults st).1 m.id =
          excludes_mem st m.id) := by
  intro m hm
  obtain ⟨hcands, hexc⟩ :=
    selector_fold_spec sys defaults st.modules st [] "" e hex
  have hcands2 : (module_items_to_solve sys defaults st).2 =
      st.modules.filter (is_candidate sys defaults) := by
    unfold module_items_to_solve
    simpa using hcands
  have hexc2 : (module_items_to_solve sys defaults st).1.excludes =
      some (e ∪ ((st.modules.filter (is_disabled sys)).map ModuleItem.id).toFinset) := by
    unfold module_items_to_solve
    simpa using hexc
  refine ⟨fun hdis => ?_, fun hen hstream => ?_, fun hnd hne hdef => ?_,
    fun hnd hne hdef => ?_⟩
  · constructor
    · unfold excludes_mem
      rw [hexc2]
      have hmem : m.id ∈
          ((st.modules.filter (is_disabled sys)).map ModuleItem.id).toFinset := by
        rw [List.mem_toFinset]
        exact List.mem_map_of_mem ModuleItem.id
          (List.mem_filter.mpr ⟨hm, (is_disabled_iff sys m).mpr hdis⟩)
      simp [Finset.mem_union, hmem]
    · rw [hcands2]
      intro hin
      have := (is_candidate_iff sys defaults m).mp (List.mem_filter.mp hin).2
      exact this.1 hdis
  · rw [hcands2]
    refine List.mem_filter.mpr ⟨hm, (is_candidate_iff sys defaults m).mpr ?_⟩
    refine ⟨?_, Or.inl ⟨hen, hstream⟩⟩
    rw [hen]
    intro hcontra
    cases hcontra
  · rw [hcands2]
    exact List.mem_filter.mpr ⟨hm, (is_candidate_iff sys defaults m).mpr
      ⟨hnd, Or.inr hdef⟩⟩
  · constructor
    · rw [hcands2]
      intro hin
      have hc := (is_candidate_iff sys defaults m).mp (List.mem_filter.mp hin).2
      rcases hc.2 with h | h
      · exact hne h
      · exact hdef h
    · unfold excludes_mem
      rw [hexc2, hex]
      have hnotdis :
          m.id ∉ ((st.modules.filter (is_disabled sys)).map ModuleItem.id).toFinset := by
        rw [List.mem_toFinset]
        intro hmem
        obtain ⟨m2, hm2, hid⟩ := List.mem_map.mp hmem
        obtain ⟨hm2mem, hm2dis⟩ := List.mem_filter.mp hm2
        by_cases heq : m2 = m
        · subst heq
          exact hnd ((is_disabled_iff sys m2).mp hm2dis)
        · exact (List.Pairwise.forall (fun _ _ h => Ne.symm h) hids hm2mem hm heq) hid
      rw [decide_eq_decide]
      simp [Finset.mem_union, hnotdis]

/-- Witness for C4 at a concrete input: a `DISABLED` record's item lands in
the Exclude Set and the record is not among the candidates handed to the
solve. -/
theorem c4_candidate_selection_witness :
    let mD : ModuleItem := ⟨"d", "s", "1", "c", none, "", [], 1⟩
    let mE : ModuleItem := ⟨"e", "s", "1", "c", none, "", [], 2⟩
    let sys : SystemState :=
      [("d", ModuleState.DISABLED, ""), ("e", ModuleState.ENABLED, "s")]
    let defaults : DefaultStreams := [("a", "s")]
    let st : Impl := ⟨5, [], [mD, mE], [], some ∅, none, false, false, [], false⟩
    (st.excludes = some (∅ : Finset Nat)) ∧
    st.modules.Pairwise (fun m1 m2 => m1.id ≠ m2.id) ∧
    mD ∈ st.modules ∧
    module_state_of sys mD.name = ModuleState.DISABLED ∧
    (excludes_mem (module_items_to_solve sys defaults st).1 mD.id = true ∧
      mD ∉ (module_items_to_solve sys defaults st).2) :=
  ⟨by decide, by decide, by decide, by decide,
    (c4_candidate_selection
        [("d", ModuleState.DISABLED, ""), ("e", ModuleState.ENABLED, "s")] [("a", "s")]
        ⟨5, [], [⟨"d", "s", "1", "c", none, "", [], 1⟩,
          ⟨"e", "s", "1", "c", none, "", [], 2⟩], [], some ∅, none, false, false, [],
          false⟩ ∅ (by decide) (by decide) ⟨"d", "s", "1", "c", none, "", [], 1⟩
        (by decide)).1 (by decide)⟩

/-- C10: every resolution pass sets the "resolution has run" flag on return,
regardless of the outcome severity (the assignment is unconditional, so this
includes CannotResolve); once the flag is set, `get_active_modules` returns
the cached Active Module Map's values without running resolution again, and
an empty registry short-circuits to an empty list, likewise without
resolving. -/
theorem c10_resolution_flag_caching (oracle : Oracle) (sys : SystemState)
    (defaults : DefaultStreams) (st : Impl) :
    ((resolve_active_module_items oracle sys defaults st).2.active_modules_resolved =
      true) ∧
    (st.active_modules_resolved = true → st.modules ≠ [] →
      get_active_modules oracle sys defaults st =
        (st.active_modules.map (fun kv => kv.2), st, false)) ∧
    (st.modules = [] → get_active_modules oracle sys defaults st = ([], st, false)) := by
  refine ⟨?_, fun hflag hmod => ?_, fun hmod => ?_⟩
  · unfold resolve_active_module_items
    rcases hp : module_items_to_solve sys defaults
        { st with excludes := some ∅, considered_uptodate := false } with ⟨st1, cands⟩
    rcases hq : module_solve oracle sys cands st1 with ⟨out, st2, tr⟩
    simp [hp, hq]
  · have hE : st.modules.isEmpty = false := by
      simpa [List.isEmpty_iff] using hmod
    unfold get_active_modules
    simp [hE, hflag]
  · unfold get_active_modules
    simp [hmod]

/-- Witness for C10 at a concrete input: with the flag already set, the
cached map's values are returned and no resolution pass runs. -/
theorem c10_resolution_flag_caching_witness :
    let a : ModuleItem := ⟨"a", "s", "1", "c", none, "", [], 1⟩
    let st : Impl := ⟨2, ["", "a:s:c"], [a], [], some ∅, none, true, true, [(1, a)],
      true⟩
    (st.active_modules_resolved = true) ∧ (st.modules ≠ []) ∧
    get_active_modules (fun _ _ => ⟨true, [], [], false⟩) [] [] st =
      (st.active_modules.map (fun kv => kv.2), st, false) :=
  ⟨by decide, by decide,
    (c10_resolution_flag_caching (fun _ _ => ⟨true, [], [], false⟩) [] []
        ⟨2, ["", "a:s:c"], [⟨"a", "s", "1", "c", none, "", [], 1⟩], [], some ∅, none,
          true, true, [(1, ⟨"a", "s", "1", "c", none, "", [], 1⟩)], true⟩).2.1
      (by decide) (by decide)⟩

lemma collect_artifact_include (parse : NevraParse) (acc : FilterData) (r : String) :
    (collect_artifact parse acc r).include_NEVRAs = acc.include_NEVRAs := by
  unfold collect_artifact
  cases parse r with
  | none => rfl
  | some na =>
    dsimp only
    split <;> rfl

lemma foldl_collect_artifact_include (parse : NevraParse) (rs : List String) :
    ∀ acc : FilterData,
      (rs.foldl (collect_artifact parse) acc).include_NEVRAs = acc.include_NEVRAs := by
  induction rs with
  | nil =>
    intro acc
    rfl
  | cons r rest ih =>
    intro acc
    simp only [List.foldl_cons]
    rw [ih, collect_artifact_include]

lemma collect_module_include (parse : NevraParse) (active : List (Nat × ModuleItem))
    (acc : FilterData) (m : ModuleItem) :
    (∀ x ∈ acc.include_NEVRAs, x ∈ (collect_module parse active acc m).include_NEVRAs) ∧
    (m.is_active active = true →
      ∀ x ∈ m.artifacts, x ∈ (collect_module parse active acc m).include_NEVRAs) := by
  unfold collect_module
  by_cases ha : m.is_active active = true
  · simp only [ha, if_true]
    constructor
    · intro x hx
      simp only [foldl_collect_artifact_include, List.mem_append]
      exact Or.inl hx
    · intro _ x hx
      simp only [foldl_collect_artifact_include, List.mem_append]
      exact Or.inr hx
  · have ha2 : m.is_active active = false := by simpa using ha
    simp only [ha2, Bool.false_eq_true, if_false]
    exact ⟨fun x hx => hx, fun hcontra => absurd hcontra (by simp [ha2])⟩

lemma foldl_collect_module_include (parse : NevraParse)
    (active : List (Nat × ModuleItem)) (ms : List ModuleItem) :
    ∀ acc : FilterData,
      (∀ x ∈ acc.include_NEVRAs,
        x ∈ (ms.foldl (collect_module parse active) acc).include_NEVRAs) ∧
      (∀ m ∈ ms, m.is_active active = true →
        ∀ x ∈ m.artifacts,
          x ∈ (ms.foldl (collect_module parse active) acc).include_NEVRAs) := by
  induction ms with
  | nil =>
    intro acc
    exact ⟨fun x hx => hx, fun m hm => absurd hm (List.not_mem_nil m)⟩
  | cons m rest ih =>
    intro acc
    constructor
    · intro x hx
      simp only [List.foldl_cons]
      exact (ih (collect_module parse active acc m)).1 x
        ((collect_module_include parse active acc m).1 x hx)
    · intro m2 hm2 hact x hx
      simp only [List.foldl_cons]
      rcases List.mem_cons.mp hm2 with heq | hmem
      · subst heq
        exact (ih (collect_module parse active acc m2)).1 x
          ((collect_module_include parse active acc m2).2 hact x hx)
      · exact (ih (collect_module parse active acc m)).2 m2 hmem hact x hx

lemma collect_data_include (parse : NevraParse) (st : Impl) (m : ModuleItem)
    (hm : m ∈ st.modules) (hact : m.is_active st.active_modules = true)
    (x : String) (hx : x ∈ m.artifacts) :
    x ∈ (collect_data_for_modular_filtering parse st).include_NEVRAs :=
  (foldl_collect_module_include parse st.active_modules st.modules
    ⟨[], [], [], [], []⟩).2 m hm hact x hx

/-- C5: a package whose NEVRA occurs both among an active module's artifacts
and among an inactive module's artifacts is never in any of the three
published exclude queries — the include query is subtracted from each
exclude query before publication. -/
theorem c5_modular_filter_include_wins (parse : NevraParse) (base_pkgs : List Package)
    (repos : List RepoCfg) (st : Impl) (p : Package)
    (hact : ∃ m ∈ st.modules,
      m.is_active st.active_modules = true ∧ p.nevra ∈ m.artifacts)
    (hina : ∃ m ∈ st.modules,
      m.is_active st.active_modules = false ∧ p.nevra ∈ m.artifacts) :
    p ∉ (module_filtering parse base_pkgs repos st).1 ∧
    p ∉ (module_filtering parse base_pkgs repos st).2.1 ∧
    p ∉ (module_filtering parse base_pkgs repos st).2.2 := by
  obtain ⟨m, hm, hmact, hpm⟩ := hact
  have hinc : p.nevra ∈ (collect_data_for_modular_filtering parse st).include_NEVRAs :=
    collect_data_include parse st m hm hmact p.nevra hpm
  refine ⟨fun hp => ?_, fun hp => ?_, fun hp => ?_⟩
  · simp only [module_filtering, List.mem_filter, decide_eq_true_eq,
      Bool.and_eq_true] at hp
    exact hp.2 ⟨hp.1.1.1, hinc⟩
  · simp only [module_filtering, List.mem_filter, decide_eq_true_eq,
      Bool.and_eq_true] at hp
    exact hp.2 ⟨hp.1.1.1, hinc⟩
  · simp only [module_filtering, List.mem_filter, List.mem_append,
      decide_eq_true_eq, Bool.and_eq_true] at hp
    obtain ⟨hmem, hninc⟩ := hp
    have hbase : p ∈ base_pkgs := by
      rcases hmem with h | h
      · exact h.1.1
      · exact h.1.1.1.1
    exact hninc ⟨hbase, hinc⟩

/-- Witness for C5 at a concrete input: the NEVRA `pkg-1-1.x86_64` belongs
to both an active and an inactive module; the package carrying it appears in
none of the three published exclude queries. -/
theorem c5_modular_filter_include_wins_witness :
    let act : ModuleItem := ⟨"ma", "s", "1", "c", none, "", ["pkg-1-1.x86_64"], 1⟩
    let ina : ModuleItem :=
      ⟨"mi", "s", "1", "c", none, "", ["pkg-1-1.x86_64", "other-1-1.x86_64"], 2⟩
    let st : Impl :=
      ⟨3, [], [act, ina], [], some ∅, none, false, false, [(1, act)], false⟩
    let p : Package := ⟨"pkg", "x86_64", "pkg-1-1.x86_64", "repo1", []⟩
    (∃ m ∈ st.modules, m.is_active st.active_modules = true ∧ p.nevra ∈ m.artifacts) ∧
    (∃ m ∈ st.modules, m.is_active st.active_modules = false ∧ p.nevra ∈ m.artifacts) ∧
    (p ∉ (module_filtering (fun _ => none) [p] [] st).1 ∧
      p ∉ (module_filtering (fun _ => none) [p] [] st).2.1 ∧
      p ∉ (module_filtering (fun _ => none) [p] [] st).2.2) :=
  ⟨by decide, by decide,
    c5_modular_filter_include_wins (fun _ => none)
      [⟨"pkg", "x86_64", "pkg-1-1.x86_64", "repo1", []⟩] []
      ⟨3, [], [⟨"ma", "s", "1", "c", none, "", ["pkg-1-1.x86_64"], 1⟩,
        ⟨"mi", "s", "1", "c", none, "", ["pkg-1-1.x86_64", "other-1-1.x86_64"], 2⟩], [],
        some ∅, none, false, false,
        [(1, ⟨"ma", "s", "1", "c", none, "", ["pkg-1-1.x86_64"], 1⟩)], false⟩
      ⟨"pkg", "x86_64", "pkg-1-1.x86_64", "repo1", []⟩ (by decide) (by decide)⟩

end Dnf5Module
